import Mathlib

/-!
Verification of the code-debugging request pipeline of this repository.

The embedding below models the two HTTP POST handlers of the repository
(the Gemini-only handler with model fallback, and the multi-provider
handler), shallowly:

* JavaScript values that can come out of `JSON.parse` are modelled by
  `JsonVal`; a JSON number is kept exactly, as its decimal mantissa and
  power-of-ten exponent (IEEE-754 rounding of `JSON.parse` is not
  modelled; every number appearing in this development is a small
  integer, where the two agree).
* `JSON.parse` is modelled by `jsonParse`, a fuel-based recursive-descent
  parser for the JSON grammar (strings with the standard escapes,
  numbers with optional fraction/exponent, arrays, objects, literals;
  the leading-zero restriction of the JSON grammar is not enforced).
* JavaScript truthiness, `||`-defaulting, property access (including the
  `TypeError` raised by property access on `null`) and `String` methods
  (`includes`, `startsWith`, `trim`) are modelled by small executable
  definitions (`jsTruthy`, `jsOr`, `jsGetOpt`, `strContains`,
  `jsStartsWith`, `jsTrim`).
* The artifact of a multipart upload is modelled by `Artifact`: its
  declared media type, its decoded text content, and its byte length
  (`size` stands for `buffer.length` in the source; base64 re-encoding
  of image bytes is not modelled, the binary segment carries the raw
  content).
* The backends are external services; a backend is a function from a
  model name and the prompt parts to a `CallResult`.  Environment /
  credential initialisation (`getGeminiClient`) and, for the second
  handler, the provider-selection routing over gemini/ollama/groq are
  outside the claims considered here; the second handler is modelled
  with a single abstract invocation function.
* Error messages generated by the JavaScript engine itself (the text of
  a `SyntaxError` from `JSON.parse` or of a `TypeError`) are not
  modelled textually; such a thrown error is kept as a tagged value
  (`JsErr`) in the response.
-/

/-! ## JavaScript / JSON value model -/

/-- A JSON value as produced by `JSON.parse`.  A number's value is
`(-1)^neg * mant * 10^tenExp` (see the header note). -/
inductive JsonVal where
  | null
  | bool (b : Bool)
  | num (neg : Bool) (mant : Nat) (tenExp : Int)
  | str (s : String)
  | arr (elems : List JsonVal)
  | obj (fields : List (String × JsonVal))

/-- JavaScript truthiness of a parsed JSON value: `null`, `false`, `0`
and the empty string are falsy; objects and arrays are always truthy. -/
def jsTruthy : JsonVal → Bool
  | JsonVal.null => false
  | JsonVal.bool b => b
  | JsonVal.num _ mant _ => !(mant == 0)
  | JsonVal.str s => !(s == "")
  | JsonVal.arr _ => true
  | JsonVal.obj _ => true

/-- Last binding of a key in a parsed object's field list.  `JSON.parse`
builds a JavaScript object by successive assignment, so a duplicated key
keeps its last value. -/
def jlookupLast : List (String × JsonVal) → String → Option JsonVal
  | [], _ => none
  | (k', v) :: rest, k =>
    match jlookupLast rest k with
    | some w => some w
    | none => if k' == k then some v else none

/-- Property access `v[k]` on a non-`null` JavaScript value: a key
lookup on objects, `undefined` (here `none`) on every other value. -/
def jsGetOpt : JsonVal → String → Option JsonVal
  | JsonVal.obj o, k => jlookupLast o k
  | _, _ => none

/-- `a || b` where `a` is a possibly-`undefined` property: the value of
`a` when present and truthy, otherwise `b`. -/
def jsOr : Option JsonVal → JsonVal → JsonVal
  | some v, b => if jsTruthy v then v else b
  | none, b => b

/-! ## Plain string utilities (models of the JS string methods used) -/

/-- `startsList pat l` : `l` begins with `pat`. -/
def startsList : List Char → List Char → Bool
  | [], _ => true
  | _ :: _, [] => false
  | c :: cs, d :: ds => c == d && startsList cs ds

/-- `containsList pat l` : `pat` occurs contiguously inside `l`. -/
def containsList (pat : List Char) : List Char → Bool
  | [] => startsList pat []
  | l@(_ :: ds) => startsList pat l || containsList pat ds

/-- Model of `String.prototype.includes`. -/
def strContains (s pat : String) : Bool := containsList pat.data s.data

/-- Model of `String.prototype.startsWith`. -/
def jsStartsWith (s pat : String) : Bool := startsList pat.data s.data

/-- JavaScript string truthiness: every string except `""` is truthy. -/
def strTruthy (s : String) : Bool := !(s == "")

/-- Whitespace recognised by `String.prototype.trim` and the `\s` regex
class; the ASCII subset (space, tab, LF, CR, FF, VT) is modelled. -/
def isJsWs (c : Char) : Bool :=
  match c.toNat with
  | 32 | 9 | 10 | 13 | 12 | 11 => true
  | _ => false

/-- Model of `String.prototype.trim`. -/
def jsTrim (s : String) : String :=
  String.mk (((s.data.dropWhile isJsWs).reverse.dropWhile isJsWs).reverse)

/-! ## A model of `JSON.parse` -/

/-- JSON whitespace (the four characters admitted by RFC 8259). -/
def isJsonWs (c : Char) : Bool :=
  match c.toNat with
  | 32 | 9 | 10 | 13 => true
  | _ => false

/-- Skip leading JSON whitespace. -/
def skipWs : List Char → List Char
  | c :: rest => if isJsonWs c then skipWs rest else c :: rest
  | [] => []

def isDigitChar (c : Char) : Bool := 48 ≤ c.toNat && c.toNat ≤ 57

def digitVal (c : Char) : Nat := c.toNat - 48

/-- Longest leading run of decimal digits, as digit values. -/
def takeDigits : List Char → List Nat × List Char
  | c :: rest =>
    if isDigitChar c then
      let (ds, r) := takeDigits rest
      (digitVal c :: ds, r)
    else ([], c :: rest)
  | [] => ([], [])

def digitsToNat (ds : List Nat) : Nat := ds.foldl (fun a d => a * 10 + d) 0

/-- Value of one hexadecimal digit of a `\u` escape. -/
def hexDigit (c : Char) : Option Nat :=
  let n := c.toNat
  if 48 ≤ n && n ≤ 57 then some (n - 48)
  else if 97 ≤ n && n ≤ 102 then some (n - 87)
  else if 65 ≤ n && n ≤ 70 then some (n - 55)
  else none

/-- The opening brace character (written numerically throughout). -/
def lbrace : Char := Char.ofNat 123

/-- The closing brace character. -/
def rbrace : Char := Char.ofNat 125

/-- The backquote character used by a Markdown code fence. -/
def backquote : Char := Char.ofNat 96

/-- Body of a JSON string after the opening quote: the decoded
characters and the rest of the input after the closing quote.  The
standard escapes are handled; a `\u` escape yields the code unit
directly (surrogate-pair combination is not modelled); unescaped
control characters are rejected as `JSON.parse` does. -/
def pStrChars : List Char → Option (List Char × List Char)
  | [] => none
  | '"' :: rest => some ([], rest)
  | '\\' :: rest =>
    match rest with
    | '"' :: r => (pStrChars r).map (fun p => ('"' :: p.1, p.2))
    | '\\' :: r => (pStrChars r).map (fun p => ('\\' :: p.1, p.2))
    | '/' :: r => (pStrChars r).map (fun p => ('/' :: p.1, p.2))
    | 'b' :: r => (pStrChars r).map (fun p => (Char.ofNat 8 :: p.1, p.2))
    | 'f' :: r => (pStrChars r).map (fun p => (Char.ofNat 12 :: p.1, p.2))
    | 'n' :: r => (pStrChars r).map (fun p => ('\n' :: p.1, p.2))
    | 'r' :: r => (pStrChars r).map (fun p => ('\r' :: p.1, p.2))
    | 't' :: r => (pStrChars r).map (fun p => ('\t' :: p.1, p.2))
    | 'u' :: h1 :: h2 :: h3 :: h4 :: r =>
      match hexDigit h1, hexDigit h2, hexDigit h3, hexDigit h4 with
      | some a, some b, some c, some d =>
        (pStrChars r).map (fun p => (Char.ofNat (a * 4096 + b * 256 + c * 16 + d) :: p.1, p.2))
      | _, _, _, _ => none
    | _ => none
  | c :: rest =>
    if c.toNat < 32 then none
    else (pStrChars rest).map (fun p => (c :: p.1, p.2))

/-- A parsed JSON number from its parts — sign, integer digits,
fraction digits, exponent sign and exponent — as a mantissa and a
power-of-ten exponent. -/
def mkJsonNum (neg : Bool) (ip fds : List Nat) (expNeg : Bool) (ex : Nat) : JsonVal :=
  JsonVal.num neg (digitsToNat (ip ++ fds))
    ((if expNeg then -(ex : Int) else (ex : Int)) - (fds.length : Int))

/-- Optional fraction part `.digits`. -/
def pFrac : List Char → Option (List Nat × List Char)
  | '.' :: rest =>
    match takeDigits rest with
    | ([], _) => none
    | (ds, r) => some (ds, r)
  | cs => some ([], cs)

/-- Optional exponent part `e[+-]digits`. -/
def pExp : List Char → Option (Bool × Nat × List Char)
  | c :: rest =>
    if c == 'e' || c == 'E' then
      let (en, rest1) :=
        match rest with
        | '-' :: r => (true, r)
        | '+' :: r => (false, r)
        | _ => (false, rest)
      match takeDigits rest1 with
      | ([], _) => none
      | (ds, r) => some (en, digitsToNat ds, r)
    else some (false, 0, c :: rest)
  | [] => some (false, 0, [])

/-- A JSON number after its optional minus sign. -/
def pNumBody (neg : Bool) (cs1 : List Char) : Option (JsonVal × List Char) :=
  match takeDigits cs1 with
  | ([], _) => none
  | (ds, cs2) =>
    match pFrac cs2 with
    | none => none
    | some (fds, cs3) =>
      match pExp cs3 with
      | none => none
      | some (en, ex, cs4) => some (mkJsonNum neg ds fds en ex, cs4)

/-- A JSON number starting at the given input. -/
def pNumber : List Char → Option (JsonVal × List Char)
  | '-' :: rest => pNumBody true rest
  | cs => pNumBody false cs

mutual

/-- A JSON value starting at the given input (fuel-based recursion; the
fuel only bounds nesting and member counts and is chosen large enough by
`jsonParse` that it is never exhausted on a complete parse). -/
def pVal : Nat → List Char → Option (JsonVal × List Char)
  | 0, _ => none
  | Nat.succ fuel, cs =>
    match skipWs cs with
    | 'n' :: 'u' :: 'l' :: 'l' :: rest => some (JsonVal.null, rest)
    | 't' :: 'r' :: 'u' :: 'e' :: rest => some (JsonVal.bool true, rest)
    | 'f' :: 'a' :: 'l' :: 's' :: 'e' :: rest => some (JsonVal.bool false, rest)
    | '"' :: rest =>
      match pStrChars rest with
      | some (sc, r) => some (JsonVal.str (String.mk sc), r)
      | none => none
    | '[' :: rest =>
      (match skipWs rest with
       | ']' :: r => some (JsonVal.arr [], r)
       | _ =>
         match pArrItems fuel rest with
         | some (vs, r) => some (JsonVal.arr vs, r)
         | none => none)
    | c :: rest =>
      if c == lbrace then
        match skipWs rest with
        | c2 :: rest2 =>
          if c2 == rbrace then some (JsonVal.obj [], rest2)
          else
            match pObjItems fuel (c2 :: rest2) with
            | some (kvs, r) => some (JsonVal.obj kvs, r)
            | none => none
        | [] => none
      else if c == '-' || isDigitChar c then pNumber (c :: rest)
      else none
    | [] => none

/-- Comma-separated array elements, consuming the closing bracket. -/
def pArrItems : Nat → List Char → Option (List JsonVal × List Char)
  | 0, _ => none
  | Nat.succ fuel, cs =>
    match pVal fuel cs with
    | none => none
    | some (v, r1) =>
      match skipWs r1 with
      | ',' :: r2 =>
        match pArrItems fuel r2 with
        | some (vs, r3) => some (v :: vs, r3)
        | none => none
      | ']' :: r2 => some ([v], r2)
      | _ => none

/-- Comma-separated object members, consuming the closing brace. -/
def pObjItems : Nat → List Char → Option (List (String × JsonVal) × List Char)
  | 0, _ => none
  | Nat.succ fuel, cs =>
    match skipWs cs with
    | '"' :: rest =>
      match pStrChars rest with
      | none => none
      | some (key, r1) =>
        match skipWs r1 with
        | ':' :: r2 =>
          (match pVal fuel r2 with
           | none => none
           | some (v, r3) =>
             match skipWs r3 with
             | ',' :: r4 =>
               match pObjItems fuel r4 with
               | some (kvs, r5) => some ((String.mk key, v) :: kvs, r5)
               | none => none
             | c :: r4 =>
               if c == rbrace then some ([(String.mk key, v)], r4) else none
             | [] => none)
        | _ => none
    | _ => none

end

/-- Model of `JSON.parse`: parse a complete JSON text (trailing
whitespace allowed); `none` corresponds to a thrown `SyntaxError`. -/
def jsonParse (s : String) : Option JsonVal :=
  match pVal (s.data.length + 1) s.data with
  | some (v, rest) => if (skipWs rest).isEmpty then some v else none
  | none => none

/-! ## Result Recovery (the JSON-extraction cascade of both handlers) -/

/-- A thrown JavaScript error reaching the handler's catch blocks: the
`SyntaxError` of a failed `JSON.parse`, or the `TypeError` of a property
access on `null`.  The engine-generated message text is not modelled. -/
inductive JsErr where
  | parseError
  | typeError

/-- The three-field result record built by both handlers.  The field
values are JavaScript values: the `||`-defaulting of the source passes a
truthy non-string value through unchanged. -/
structure DebugResultV where
  errorExplanation : JsonVal
  reasoning : JsonVal
  fixedCode : JsonVal

/-- `true` when the input starts with a three-backquote fence. -/
def isFenceAt : List Char → Bool
  | c1 :: c2 :: c3 :: _ => c1 == backquote && c2 == backquote && c3 == backquote
  | _ => false

/-- Input after the first three-backquote fence, if any. -/
def afterFirstFence : List Char → Option (List Char)
  | [] => none
  | c :: rest =>
    if isFenceAt (c :: rest) then some (rest.drop 2) else afterFirstFence rest

/-- `true` when the input is whitespace followed by a closing fence. -/
def wsThenFence (cs : List Char) : Bool :=
  match cs with
  | [] => false
  | c :: rest => if isJsWs c then wsThenFence rest else isFenceAt cs

/-- Longest prefix ending at a closing brace that is followed by
whitespace and a closing fence (the greedy group of the fenced regex). -/
def toLastFencedClose : List Char → Option (List Char)
  | [] => none
  | c :: rest =>
    match toLastFencedClose rest with
    | some tl => some (c :: tl)
    | none => if c == rbrace && wsThenFence rest then some [c] else none

/-- Model of the capture of the first regex of the recovery step: after
an opening fence, an optional `json` tag and whitespace, a
brace-delimited span running greedily to the last closing brace that is
followed by whitespace and a closing fence.  (The source's regex engine
would go on to try later fences when the first one cannot complete; the
texts in this development contain at most one fence.) -/
def fencedMatch (cs : List Char) : Option (List Char) :=
  match afterFirstFence cs with
  | none => none
  | some afterF =>
    let afterTag := if startsList ['j', 's', 'o', 'n'] afterF then afterF.drop 4 else afterF
    match skipWs afterTag with
    | c :: rest =>
      if c == lbrace then (toLastFencedClose rest).map (fun tl => lbrace :: tl) else none
    | [] => none

/-- Longest prefix ending at a closing brace (greedy part of the
brace-span regex). -/
def toLastClose : List Char → Option (List Char)
  | [] => none
  | c :: rest =>
    match toLastClose rest with
    | some tl => some (c :: tl)
    | none => if c == rbrace then some [c] else none

/-- Model of the second regex of the recovery step: the span from the
first opening brace through the last closing brace after it. -/
def braceSpan : List Char → Option (List Char)
  | [] => none
  | c :: rest =>
    if c == lbrace then (toLastClose rest).map (fun tl => lbrace :: tl)
    else braceSpan rest

/-- `jsonMatch[1] || jsonMatch[0]` over the two regexes: the fenced
capture when the first regex matches, otherwise the brace span. -/
def extractJsonSpan (cs : List Char) : Option (List Char) :=
  match fencedMatch cs with
  | some g => some g
  | none => braceSpan cs

/-- The field-defaulting step of both handlers (their last lines before
responding): each output field is the first truthy value among the
aliased properties of the candidate, else a fixed placeholder.  Property
access on a `null` candidate throws a `TypeError`.  (The source
evaluates the `||` chains lazily; as the only throwing access is the
first one of each chain on a `null` candidate, evaluating the accesses
eagerly is observationally the same.) -/
def mkDebugResult : JsonVal → Except JsErr DebugResultV
  | JsonVal.null => Except.error JsErr.typeError
  | v =>
    Except.ok
      { errorExplanation :=
          jsOr (jsGetOpt v "errorExplanation")
            (jsOr (jsGetOpt v "explanation") (JsonVal.str "No error explanation provided"))
        reasoning :=
          jsOr (jsGetOpt v "reasoning")
            (jsOr (jsGetOpt v "reason") (JsonVal.str "No reasoning provided"))
        fixedCode :=
          jsOr (jsGetOpt v "fixedCode")
            (jsOr (jsGetOpt v "code")
              (jsOr (jsGetOpt v "correctedCode") (JsonVal.str "No fixed code provided"))) }

/-- The synthesized fallback object of the recovery step (last resort
when no JSON could be extracted). -/
def synthFallback (content : String) : JsonVal :=
  JsonVal.obj
    [("errorExplanation", JsonVal.str content),
     ("reasoning", JsonVal.str "AI analysis completed"),
     ("fixedCode", JsonVal.str "See explanation above")]

/-- The Result Recovery step shared verbatim by both handlers: parse the
whole text as JSON; else extract a fenced or brace-delimited span and
parse it (a failure of this second parse is a thrown `SyntaxError`, not
caught by the recovery step); else synthesize a result from the raw
text.  The candidate then goes through the field-defaulting step. -/
def recover (content : String) : Except JsErr DebugResultV :=
  match jsonParse content with
  | some v => mkDebugResult v
  | none =>
    match extractJsonSpan content.data with
    | some span =>
      match jsonParse (String.mk span) with
      | some v => mkDebugResult v
      | none => Except.error JsErr.parseError
    | none => mkDebugResult (synthFallback content)

/-! ## Data model of a request -/

/-- An uploaded artifact as the handlers see it after `formData.get`:
its filename, declared media type (`file.type`, possibly empty), the
decoded text content of its bytes, and its byte length (`buffer.length`
in the source). -/
structure Artifact where
  name : String
  declType : String
  content : String
  size : Nat

/-- A prompt segment handed to a backend: an inline binary segment (an
image, carried here by its raw content and media type) or a text
segment. -/
inductive PromptPart where
  | inlineData (mimeType : String) (data : String)
  | text (s : String)

/-- The outcome of one backend invocation, as seen by the handler: the
response text, or a thrown error with its message and optional HTTP
status. -/
inductive CallResult where
  | success (text : String)
  | failure (msg : String) (status : Option Nat)

/-- An HTTP JSON response of a handler: the three-field success body, an
error body with its message and status, or a response produced by the
outermost catch from a thrown engine error (status 500, message not
modelled textually). -/
inductive ApiResponse where
  | ok (result : DebugResultV)
  | err (msg : String) (status : Nat)
  | caught (e : JsErr)

/-! ## The Gemini handler (first handler): prompt building -/

/-- The part of the system prompt shared by both handlers' literals. -/
def systemPromptCommon : String :=
  "You are an expert code debugging assistant. When given code or error messages, you should:\n1. Identify the error clearly\n2. Explain why the error occurred\n3. Provide a corrected version of the code\n\nIMPORTANT: You MUST respond ONLY with valid JSON. Do not include any markdown, code blocks, or explanatory text outside the JSON.\n\nRespond with a JSON object containing these exact keys:\n- errorExplanation: A clear explanation of what the error is\n- reasoning: A brief explanation of why the error happened\n- fixedCode: The corrected code (if applicable, otherwise explain the fix)\n\nExample format:\n\x7b\"errorExplanation\":\"...\",\"reasoning\":\"...\",\"fixedCode\":\"...\"\x7d"

/-- System prompt of the first handler (adds the image note). -/
def systemPrompt1 : String :=
  systemPromptCommon ++ "\n\nIf the input is an image, analyze it carefully for code or error messages."

/-- System prompt of the second handler. -/
def systemPrompt2 : String := systemPromptCommon

/-- The instruction text appended for an image artifact (identical in
both handlers). -/
def imageInstr : String :=
  "Please analyze this image for code errors. Identify any errors, explain why they occurred, and provide fixed code if applicable. Respond in JSON format with errorExplanation, reasoning, and fixedCode fields."

/-- The instruction text embedding a piece of code (used for a text
artifact's decoded content and for the raw code field; identical
wording at all four places in the source). -/
def analyzeCodeInstr (x : String) : String :=
  "Please analyze this code for errors:\n\n" ++ x ++ "\n\nIdentify any errors, explain why they occurred, and provide fixed code. Respond in JSON format with errorExplanation, reasoning, and fixedCode fields."

/-- `file.type || 'application/octet-stream'`. -/
def effFileType (f : Artifact) : String :=
  if strTruthy f.declType then f.declType else "application/octet-stream"

/-- Image classification: the effective media type begins `image/`. -/
def isImageFile (f : Artifact) : Bool := jsStartsWith (effFileType f) "image/"

/-- The size ceiling applied to an artifact: 10 MiB for images, 1 MiB
otherwise. -/
def maxSizeFor (f : Artifact) : Nat :=
  if isImageFile f then 10 * 1024 * 1024 else 1024 * 1024

/-- The size-limit check shared by both handlers (identical source
lines): an oversize artifact is answered with a 400 response whose
message cites the limit in MB; `none` means the check passes. -/
def checkFileSize : Option Artifact → Option ApiResponse
  | none => none
  | some f =>
    if f.size > maxSizeFor f then
      some (ApiResponse.err
        ("File is too large. Maximum size: " ++ toString (maxSizeFor f / 1024 / 1024) ++ "MB") 400)
    else none

/-- JavaScript truthiness of the optional `code` form field (`null` and
`""` are falsy). -/
def jsTruthyOptStr : Option String → Bool
  | none => false
  | some s => strTruthy s

/-- The condition under which the raw-code instruction is appended:
`code && code.trim()`. -/
def codeNonBlank : Option String → Bool
  | none => false
  | some c => strTruthy c && strTruthy (jsTrim c)

/-- The `userPrompt` accumulator of the first handler: the system
prompt, then (`+=`) the artifact-derived instruction, then (`+=`) the
raw-code instruction. -/
def userPromptText1 (file : Option Artifact) (code : Option String) : String :=
  let up0 := systemPrompt1 ++ "\n\n"
  let up1 :=
    match file with
    | some f => if isImageFile f then up0 ++ imageInstr else up0 ++ analyzeCodeInstr f.content
    | none => up0
  match code with
  | some c => if strTruthy c && strTruthy (jsTrim c) then up1 ++ analyzeCodeInstr c else up1
  | none => up1

/-- The `parts` array of the first handler: the inline image segment
when the artifact is an image, then the accumulated text prompt
(always appended last). -/
def buildPrompt1 (file : Option Artifact) (code : Option String) : List PromptPart :=
  (match file with
   | some f => if isImageFile f then [PromptPart.inlineData (effFileType f) f.content] else []
   | none => []) ++ [PromptPart.text (userPromptText1 file code)]

/-! ## The Gemini handler: model-fallback dispatch -/

/-- The registry's ordered model candidates for the Gemini provider. -/
def modelNamesToTry : List String := ["gemini-1.5-flash", "gemini-1.5-pro", "gemini-pro"]

/-- The error classifier of the fallback loop: the message signals an
unknown/unavailable model. -/
def errorIsModelNotFound (m : String) : Bool :=
  strContains m "not found" || strContains m "404"

/-- `geminiError?.status || 500`, then clamped into [400, 600). -/
def clampStatus : Option Nat → Nat
  | some s =>
    let s0 := if s == 0 then 500 else s
    if 400 ≤ s0 && s0 < 600 then s0 else 500
  | none => 500

/-- The long help text substituted for the message when even the last
candidate is unknown (transcribed from the source template literal). -/
def notFoundHelpText (errorMessage : String) : String :=
  "None of the available Gemini models worked with your API key.\n          \nTried models: " ++ String.intercalate ", " modelNamesToTry ++ "\n\nThis usually means:\n1. Your API key doesn\x27t have access to these models\n2. The Generative Language API is not enabled in your Google Cloud project\n3. Your API key may be restricted\n\nPlease:\n- Check your API key at: https://makersuite.google.com/app/apikey\n- Enable \"Generative Language API\" in Google Cloud Console\n- Verify your API key has the correct permissions\n\nOriginal error: " ++ errorMessage

/-- `helpfulMessage`: the not-found help text when the message signals
an unknown model (reachable only on the last candidate), otherwise the
message unchanged. -/
def geminiHelpfulMessage (errorMessage : String) : String :=
  if errorIsModelNotFound errorMessage then notFoundHelpText errorMessage else errorMessage

/-- The `!response` message after the loop (reachable only when the
candidate list is empty). -/
def noResponseText (lastMsg : Option String) : String :=
  let lastPart :=
    match lastMsg with
    | some m => if strTruthy m then m else "Unknown error"
    | none => "Unknown error"
  "Failed to get response from any Gemini model.\n          \nTried all models: " ++ String.intercalate ", " modelNamesToTry ++ "\nLast error: " ++ lastPart ++ "\n\nPlease check your API key permissions and ensure the Generative Language API is enabled.\n"

/-- One outcome of the fallback loop over the model candidates: a
response text, an error response returned from inside the loop, or an
exhausted candidate list.  `attempted` records the backend calls made,
in order. -/
inductive FallbackOutcome where
  | gotResponse (text : String) (attempted : List String)
  | httpError (msg : String) (status : Nat) (attempted : List String)
  | exhausted (lastMsg : Option String) (attempted : List String)

/-- The model-fallback loop of the first handler: try the candidates in
order; a success breaks out; a failure whose message signals an unknown
model falls through to the next candidate unless this was the last one;
any other failure (or an unknown-model failure on the last candidate)
is answered immediately from inside the loop. -/
def fallbackLoop (backend : String → List PromptPart → CallResult) (parts : List PromptPart) :
    List String → List String → Option String → FallbackOutcome
  | [], attempted, lastMsg => FallbackOutcome.exhausted lastMsg attempted
  | m :: rest, attempted, _ =>
    match backend m parts with
    | CallResult.success t => FallbackOutcome.gotResponse t (attempted ++ [m])
    | CallResult.failure rawMsg status =>
      let errorMessage := if strTruthy rawMsg then rawMsg else "Gemini API error"
      if errorIsModelNotFound errorMessage && !rest.isEmpty then
        fallbackLoop backend parts rest (attempted ++ [m]) (some rawMsg)
      else
        FallbackOutcome.httpError ("Gemini API error: " ++ geminiHelpfulMessage errorMessage)
          (clampStatus status) (attempted ++ [m])

/-- The first handler end to end (environment/client initialisation and
form decoding assumed to have succeeded; the backend stands for
`model.generateContent` at a given model name).  Returns the HTTP
response together with the list of backend calls made, in order. -/
def POST1 (file : Option Artifact) (code : Option String)
    (backend : String → List PromptPart → CallResult) : ApiResponse × List String :=
  if !(file.isSome) && !(jsTruthyOptStr code) then
    (ApiResponse.err "Please provide either code or a file" 400, [])
  else
    match checkFileSize file with
    | some resp => (resp, [])
    | none =>
      let parts := buildPrompt1 file code
      match fallbackLoop backend parts modelNamesToTry [] none with
      | FallbackOutcome.httpError msg status attempted => (ApiResponse.err msg status, attempted)
      | FallbackOutcome.exhausted lastMsg attempted =>
        (ApiResponse.err (noResponseText lastMsg) 500, attempted)
      | FallbackOutcome.gotResponse content attempted =>
        if strTruthy content then
          match recover content with
          | Except.ok d => (ApiResponse.ok d, attempted)
          | Except.error e => (ApiResponse.caught e, attempted)
        else (ApiResponse.err "No response from AI" 500, attempted)

/-! ## The multi-provider handler (second handler) -/

/-- The `userPrompt` variable of the second handler.  Unlike the first
handler it is built by plain assignment: the raw-code instruction
overwrites the artifact-derived instruction when both inputs are
present. -/
def userPromptText2 (file : Option Artifact) (code : Option String) : String :=
  let upF :=
    match file with
    | some f => if isImageFile f then imageInstr else analyzeCodeInstr f.content
    | none => ""
  match code with
  | some c => if strTruthy c && strTruthy (jsTrim c) then analyzeCodeInstr c else upF
  | none => upF

/-- The `parts` array of the second handler: the inline image segment
when the artifact is an image; the text segment (system prompt plus
user prompt) is pushed only when the user prompt is non-empty. -/
def buildPrompt2 (file : Option Artifact) (code : Option String) : List PromptPart :=
  (match file with
   | some f => if isImageFile f then [PromptPart.inlineData (effFileType f) f.content] else []
   | none => []) ++
  (let up := userPromptText2 file code
   if strTruthy up then [PromptPart.text (systemPrompt2 ++ "\n\n" ++ up)] else [])

/-- The setup-instructions wrapper of the second handler's provider
catch block (transcribed from the source template literal). -/
def aiProviderErrorText (m : String) : String :=
  "AI Provider Error: " ++ m ++ "\n\nSetup Instructions:\n1. For Gemini 2.5 Flash (Recommended - Free tier available):\n   - Get API key from: https://makersuite.google.com/app/apikey\n   - Add to .env.local: GEMINI_API_KEY=your_key\n   - Set: AI_PROVIDER=gemini (or leave default)\n\n2. For Ollama (Free & Local):\n   - Install from: https://ollama.ai\n   - Run: ollama pull llama3.2:3b\n   - Set: AI_PROVIDER=ollama\n\n3. For Groq (Free API):\n   - Get API key from: https://console.groq.com\n   - Add to .env.local: GROQ_API_KEY=your_key\n   - Set: AI_PROVIDER=groq"

/-- The second handler end to end.  The provider routing over
gemini/ollama/groq is abstracted into a single invocation function
`invoke` (each configured provider performs exactly one backend call;
this handler has no model-fallback loop).  The returned number counts
the provider invocations made.  Thrown recovery errors land in the
provider catch block, which wraps their (unmodelled) message in the
setup-instructions text; they are kept here as `caught`. -/
def POST2 (file : Option Artifact) (code : Option String)
    (invoke : List PromptPart → CallResult) : ApiResponse × Nat :=
  if !(file.isSome) && !(jsTruthyOptStr code) then
    (ApiResponse.err "Please provide either code or a file" 400, 0)
  else
    match checkFileSize file with
    | some resp => (resp, 0)
    | none =>
      let parts := buildPrompt2 file code
      match invoke parts with
      | CallResult.failure m _ =>
        (ApiResponse.err (aiProviderErrorText (if strTruthy m then m else "Unknown error")) 500, 1)
      | CallResult.success content =>
        if strTruthy content then
          match recover content with
          | Except.ok d => (ApiResponse.ok d, 1)
          | Except.error e => (ApiResponse.caught e, 1)
        else (ApiResponse.err (aiProviderErrorText "No response from AI") 500, 1)

/-! ## Spec-side definitions and observers used by the claims -/

/-- Resolution of an output field as the (amended) spec words it: the
value of the first listed key whose value is present and truthy, else
the placeholder.  Stated independently of `mkDebugResult` so the two
can be compared. -/
def firstTruthy (o : List (String × JsonVal)) : List String → String → JsonVal
  | [], ph => JsonVal.str ph
  | k :: ks, ph =>
    match jlookupLast o k with
    | some v => if jsTruthy v then v else firstTruthy o ks ph
    | none => firstTruthy o ks ph

/-- Whether a JavaScript value is a string. -/
def isStrB : JsonVal → Bool
  | JsonVal.str _ => true
  | _ => false

/-- Whether a handler response is the three-field success body. -/
def isOkResp : ApiResponse → Bool
  | ApiResponse.ok _ => true
  | _ => false

/-- Whether a success response has string values in all three fields. -/
def okAllStrings : ApiResponse → Bool
  | ApiResponse.ok r => isStrB r.errorExplanation && isStrB r.reasoning && isStrB r.fixedCode
  | _ => false

/-- Whether some text segment of a prompt contains the given text. -/
def partTextContains (parts : List PromptPart) (pat : String) : Bool :=
  parts.any fun p =>
    match p with
    | PromptPart.text t => strContains t pat
    | PromptPart.inlineData _ _ => false

/-! ## Concrete fixtures for witnesses and counterexamples -/

/-- A backend that always answers with the plain text `hi`. -/
def bHi : String → List PromptPart → CallResult := fun _ _ => CallResult.success "hi"

/-- A backend whose first two candidates fail with unknown-model
messages and whose third succeeds. -/
def c1Backend : String → List PromptPart → CallResult := fun m _ =>
  if m == "gemini-1.5-flash" then CallResult.failure "model gemini-1.5-flash not found" (some 404)
  else if m == "gemini-1.5-pro" then CallResult.failure "404: model unavailable" (some 404)
  else CallResult.success "THIRD"

/-- A backend that fails immediately with a non-availability error. -/
def c2Backend : String → List PromptPart → CallResult := fun _ _ =>
  CallResult.failure "quota exceeded" (some 429)

/-- A backend whose JSON answer carries a number under a canonical
key. -/
def b42 : String → List PromptPart → CallResult := fun _ _ =>
  CallResult.success "\x7b\"errorExplanation\":42,\"reasoning\":\"r\",\"fixedCode\":\"f\"\x7d"

/-- A small text artifact whose content is a recognisable marker. -/
def fZZ : Artifact := { name := "a.txt", declType := "text/plain", content := "ZZFILEZZ", size := 8 }

/-- An image artifact one byte over the 10 MiB ceiling. -/
def bigImage : Artifact := { name := "big.png", declType := "image/png", content := "", size := 10485761 }

/-- A text artifact one byte over the 1 MiB ceiling. -/
def bigText : Artifact := { name := "big.txt", declType := "text/plain", content := "x", size := 1048577 }

/-- An image artifact exactly at the 10 MiB ceiling. -/
def okImage : Artifact := { name := "ok.png", declType := "image/png", content := "", size := 10485760 }

/-! ## Helper lemmas -/

theorem startsList_append (p s : List Char) : startsList p (p ++ s) = true := by
  induction p with
  | nil => rfl
  | cons c cs ih => simp [startsList, ih]

theorem containsList_of_startsList {p l : List Char} (h : startsList p l = true) :
    containsList p l = true := by
  cases l with
  | nil => simpa [containsList] using h
  | cons c ds => simp [containsList, h]

theorem containsList_append_right {p rest : List Char} (pre : List Char)
    (h : containsList p rest = true) : containsList p (pre ++ rest) = true := by
  induction pre with
  | nil => simpa using h
  | cons c cs ih => simp [containsList, ih]

theorem strContains_append_middle (pre mid suf : String) :
    strContains (pre ++ mid ++ suf) mid = true := by
  unfold strContains
  rw [String.data_append, String.data_append, List.append_assoc]
  exact containsList_append_right pre.data
    (containsList_of_startsList (startsList_append mid.data suf.data))

theorem strContains_append_left (pre mid : String) :
    strContains (pre ++ mid) mid = true := by
  have h := strContains_append_middle pre mid ""
  simpa using h

theorem jsOr_truthy {ov : Option JsonVal} {b : JsonVal} (h : jsTruthy b = true) :
    jsTruthy (jsOr ov b) = true := by
  cases ov with
  | none => simpa [jsOr] using h
  | some v => cases hv : jsTruthy v <;> simp [jsOr, hv, h]

theorem mkDebugResult_ok_truthy {v : JsonVal} {r : DebugResultV}
    (h : mkDebugResult v = Except.ok r) :
    jsTruthy r.errorExplanation = true ∧ jsTruthy r.reasoning = true ∧
      jsTruthy r.fixedCode = true := by
  obtain ⟨e1, e2, e3⟩ := r
  dsimp only
  rcases v with _ | b | ⟨ng, mant, te⟩ | s | xs | o <;>
    first
      | (simp only [mkDebugResult, Except.ok.injEq, DebugResultV.mk.injEq] at h
         obtain ⟨h1, h2, h3⟩ := h
         subst h1
         subst h2
         subst h3
         refine ⟨jsOr_truthy (jsOr_truthy ?_), jsOr_truthy (jsOr_truthy ?_),
           jsOr_truthy (jsOr_truthy (jsOr_truthy ?_))⟩ <;> rfl)
      | simp [mkDebugResult] at h

theorem jlookupLast_mem {o : List (String × JsonVal)} {k : String} {v : JsonVal}
    (h : jlookupLast o k = some v) : (k, v) ∈ o := by
  induction o with
  | nil => simp [jlookupLast] at h
  | cons p rest ih =>
    obtain ⟨k', v'⟩ := p
    simp only [jlookupLast] at h
    cases hr : jlookupLast rest k with
    | some w =>
      rw [hr] at h
      cases h
      exact List.mem_cons_of_mem _ (ih hr)
    | none =>
      rw [hr] at h
      by_cases hk : (k' == k) = true
      · simp [hk] at h
        subst h
        have : k' = k := by simpa using hk
        subst this
        exact List.mem_cons_self _ _
      · simp [hk] at h

theorem errorIsModelNotFound_ne_empty {m : String} (h : errorIsModelNotFound m = true) :
    (m == "") = false := by
  cases hq : m == "" with
  | false => rfl
  | true =>
    have hm : m = "" := by simpa using hq
    subst hm
    exact absurd h (by decide)

/-! ## Claim theorems -/

/-- C1 — Model-fallback ordering: for a backend whose first two model
candidates fail with unknown-model errors and whose third call
succeeds, the dispatcher loop makes exactly three backend calls, in the
registry's candidate order, and returns the raw text of the third call;
and for any backend whose first candidate succeeds, the loop stops
after that single call (a prior success short-circuits all later
candidates). -/
theorem gemini_fallback_order
    (backend b' : String → List PromptPart → CallResult) (parts : List PromptPart)
    (m1 m2 t t' : String) (s1 s2 : Option Nat)
    (h1 : backend "gemini-1.5-flash" parts = CallResult.failure m1 s1)
    (h2 : backend "gemini-1.5-pro" parts = CallResult.failure m2 s2)
    (h3 : backend "gemini-pro" parts = CallResult.success t)
    (hm1 : errorIsModelNotFound m1 = true)
    (hm2 : errorIsModelNotFound m2 = true)
    (hb' : b' "gemini-1.5-flash" parts = CallResult.success t') :
    fallbackLoop backend parts modelNamesToTry [] none =
      FallbackOutcome.gotResponse t ["gemini-1.5-flash", "gemini-1.5-pro", "gemini-pro"] ∧
    fallbackLoop b' parts modelNamesToTry [] none =
      FallbackOutcome.gotResponse t' ["gemini-1.5-flash"] := by
  have hne1 := errorIsModelNotFound_ne_empty hm1
  have hne2 := errorIsModelNotFound_ne_empty hm2
  constructor
  · simp only [modelNamesToTry, fallbackLoop, h1, h2, h3, strTruthy, hne1, hne2,
      Bool.not_false, if_true, hm1, hm2, List.isEmpty, Bool.not_true, Bool.and_true,
      List.nil_append, List.append_assoc, List.singleton_append]
    rfl
  · simp only [modelNamesToTry, fallbackLoop, hb']
    rfl

/-- C2 — Model-fallback stop condition: for a backend whose first
candidate fails with a non-empty message that signals neither an
unknown model nor a 404, the dispatcher loop makes exactly one backend
call and immediately answers with the provider error; it never advances
to the next candidate. -/
theorem gemini_fallback_stop
    (backend : String → List PromptPart → CallResult) (parts : List PromptPart)
    (m : String) (s : Option Nat)
    (h1 : backend "gemini-1.5-flash" parts = CallResult.failure m s)
    (hm : errorIsModelNotFound m = false) :
    fallbackLoop backend parts modelNamesToTry [] none =
      FallbackOutcome.httpError
        ("Gemini API error: " ++ (if strTruthy m then m else "Gemini API error"))
        (clampStatus s) ["gemini-1.5-flash"] := by
  by_cases hne : m = ""
  · subst hne
    have hd : errorIsModelNotFound "Gemini API error" = false := by decide
    simp [modelNamesToTry, fallbackLoop, h1, strTruthy, hd, geminiHelpfulMessage]
  · have hne' : (m == "") = false := beq_eq_false_iff_ne.mpr hne
    simp [modelNamesToTry, fallbackLoop, h1, strTruthy, hne', hm, geminiHelpfulMessage]

/-- Witness for C1 at a concrete backend. -/
theorem gemini_fallback_order_witness :
    fallbackLoop c1Backend [] modelNamesToTry [] none =
      FallbackOutcome.gotResponse "THIRD" ["gemini-1.5-flash", "gemini-1.5-pro", "gemini-pro"] ∧
    fallbackLoop bHi [] modelNamesToTry [] none =
      FallbackOutcome.gotResponse "hi" ["gemini-1.5-flash"] :=
  gemini_fallback_order c1Backend bHi [] "model gemini-1.5-flash not found"
    "404: model unavailable" "THIRD" "hi" (some 404) (some 404) rfl rfl rfl
    (by decide) (by decide) rfl

/-- Witness for C2 at a concrete backend. -/
theorem gemini_fallback_stop_witness :
    fallbackLoop c2Backend [] modelNamesToTry [] none =
      FallbackOutcome.httpError ("Gemini API error: " ++ "quota exceeded")
        (clampStatus (some 429)) ["gemini-1.5-flash"] :=
  gemini_fallback_stop c2Backend [] "quota exceeded" (some 429) rfl (by decide)

/-- C3 counterexample — a request whose raw code is a single space
(blank, but truthy in JavaScript) with no artifact is not rejected by
either validation check: the first handler calls the provider once and
answers with a success body. -/
theorem empty_input_blank_code_counterexample :
    (POST1 none (some " ") bHi).2 = ["gemini-1.5-flash"] ∧
    isOkResp (POST1 none (some " ") bHi).1 = true :=
  ⟨rfl, rfl⟩

/-- C3 (amended) — Empty-input rejection: a request with no artifact
and a raw code field that is absent or the empty string is rejected by
both handlers with the validation error, status 400, and zero provider
calls.  (A whitespace-only raw code is truthy in JavaScript and is not
rejected; see the counterexample.) -/
theorem empty_input_rejected
    (code : Option String) (backend : String → List PromptPart → CallResult)
    (invoke : List PromptPart → CallResult)
    (h : code = none ∨ code = some "") :
    POST1 none code backend = (ApiResponse.err "Please provide either code or a file" 400, []) ∧
    POST2 none code invoke = (ApiResponse.err "Please provide either code or a file" 400, 0) := by
  rcases h with h | h <;> subst h <;> exact ⟨rfl, rfl⟩

/-- Witness for the amended C3 at a concrete request. -/
theorem empty_input_rejected_witness :
    POST1 none none bHi = (ApiResponse.err "Please provide either code or a file" 400, []) ∧
    POST2 none none (fun _ => CallResult.success "hi") =
      (ApiResponse.err "Please provide either code or a file" 400, 0) :=
  empty_input_rejected none bHi (fun _ => CallResult.success "hi") (Or.inl rfl)

/-- C4 — Artifact size limits: an artifact classified as an image whose
byte length exceeds 10 * 1024 * 1024 (any other artifact: 1024 * 1024)
is rejected by both handlers with a 400 message citing the exact limit
(`10MB`, resp. `1MB`) and zero provider calls; an artifact at or below
its limit passes the size check. -/
theorem artifact_size_limits
    (f : Artifact) (code : Option String)
    (backend : String → List PromptPart → CallResult) (invoke : List PromptPart → CallResult) :
    (isImageFile f = true → f.size > 10 * 1024 * 1024 →
      POST1 (some f) code backend =
        (ApiResponse.err "File is too large. Maximum size: 10MB" 400, []) ∧
      POST2 (some f) code invoke =
        (ApiResponse.err "File is too large. Maximum size: 10MB" 400, 0) ∧
      strContains "File is too large. Maximum size: 10MB" "10MB" = true) ∧
    (isImageFile f = false → f.size > 1024 * 1024 →
      POST1 (some f) code backend =
        (ApiResponse.err "File is too large. Maximum size: 1MB" 400, []) ∧
      POST2 (some f) code invoke =
        (ApiResponse.err "File is too large. Maximum size: 1MB" 400, 0) ∧
      strContains "File is too large. Maximum size: 1MB" "1MB" = true) ∧
    (f.size ≤ maxSizeFor f → checkFileSize (some f) = none) := by
  refine ⟨?_, ?_, ?_⟩
  · intro himg hsz
    have hmax : maxSizeFor f = 10 * 1024 * 1024 := by simp [maxSizeFor, himg]
    have hmsg : ("File is too large. Maximum size: " ++
        toString (10 * 1024 * 1024 / 1024 / 1024 : Nat) ++ "MB") =
        "File is too large. Maximum size: 10MB" := by decide
    have hchk : checkFileSize (some f) =
        some (ApiResponse.err "File is too large. Maximum size: 10MB" 400) := by
      simp only [checkFileSize, hmax, if_pos hsz, hmsg]
    refine ⟨?_, ?_, by decide⟩
    · simp [POST1, hchk]
    · simp [POST2, hchk]
  · intro himg hsz
    have hmax : maxSizeFor f = 1024 * 1024 := by simp [maxSizeFor, himg]
    have hmsg : ("File is too large. Maximum size: " ++
        toString (1024 * 1024 / 1024 / 1024 : Nat) ++ "MB") =
        "File is too large. Maximum size: 1MB" := by decide
    have hchk : checkFileSize (some f) =
        some (ApiResponse.err "File is too large. Maximum size: 1MB" 400) := by
      simp only [checkFileSize, hmax, if_pos hsz, hmsg]
    refine ⟨?_, ?_, by decide⟩
    · simp [POST1, hchk]
    · simp [POST2, hchk]
  · intro hle
    simp only [checkFileSize, if_neg (by omega : ¬ f.size > maxSizeFor f)]

/-- Witness for C4 at concrete oversize and at-limit artifacts. -/
theorem artifact_size_limits_witness :
    POST1 (some bigImage) none bHi =
      (ApiResponse.err "File is too large. Maximum size: 10MB" 400, []) ∧
    POST1 (some bigText) none bHi =
      (ApiResponse.err "File is too large. Maximum size: 1MB" 400, []) ∧
    checkFileSize (some okImage) = none :=
  ⟨((artifact_size_limits bigImage none bHi (fun _ => CallResult.success "hi")).1
      (by decide) (by decide)).1,
   ((artifact_size_limits bigText none bHi (fun _ => CallResult.success "hi")).2.1
      (by decide) (by decide)).1,
   (artifact_size_limits okImage none bHi (fun _ => CallResult.success "hi")).2.2
      (by decide)⟩

/-- C5 counterexample — on the raw backend text `\x7boops\x7d` the
first parse fails, the brace-span regex extracts the whole text, and
the second `JSON.parse` throws; the recovery step propagates this parse
error instead of returning a degraded result. -/
theorem recovery_throws_counterexample :
    recover "\x7boops\x7d" = Except.error JsErr.parseError := rfl

/-- C5 (amended) — Result Recovery population: whenever the recovery
step does return a `DebugResult`, all three fields are populated with a
truthy value (a placeholder at worst); but recovery is not total — it
propagates a thrown error when the extracted fenced/brace span is not
valid JSON, or when the parsed value is `null` (see the
counterexample). -/
theorem recovery_populates_on_success (s : String) (r : DebugResultV)
    (h : recover s = Except.ok r) :
    jsTruthy r.errorExplanation = true ∧ jsTruthy r.reasoning = true ∧
      jsTruthy r.fixedCode = true := by
  unfold recover at h
  cases hp : jsonParse s with
  | some v =>
    rw [hp] at h
    exact mkDebugResult_ok_truthy h
  | none =>
    rw [hp] at h
    cases he : extractJsonSpan s.data with
    | some span =>
      rw [he] at h
      dsimp only at h
      cases hq : jsonParse (String.mk span) with
      | some v =>
        rw [hq] at h
        exact mkDebugResult_ok_truthy h
      | none =>
        rw [hq] at h
        cases h
    | none =>
      rw [he] at h
      exact mkDebugResult_ok_truthy h

/-- Witness for the amended C5 at a concrete raw text. -/
theorem recovery_populates_on_success_witness :
    jsTruthy (DebugResultV.errorExplanation
      ⟨JsonVal.str "hi", JsonVal.str "AI analysis completed",
        JsonVal.str "See explanation above"⟩) = true ∧
    jsTruthy (DebugResultV.reasoning
      ⟨JsonVal.str "hi", JsonVal.str "AI analysis completed",
        JsonVal.str "See explanation above"⟩) = true ∧
    jsTruthy (DebugResultV.fixedCode
      ⟨JsonVal.str "hi", JsonVal.str "AI analysis completed",
        JsonVal.str "See explanation above"⟩) = true :=
  recovery_populates_on_success "hi"
    ⟨JsonVal.str "hi", JsonVal.str "AI analysis completed",
      JsonVal.str "See explanation above"⟩ rfl

/-- C6 counterexample — a well-formed JSON object carrying the three
canonical keys where `errorExplanation` is the empty string does not
round-trip: the empty string is falsy, so the `||` chain replaces it by
the placeholder. -/
theorem roundtrip_empty_string_counterexample :
    recover "\x7b\"errorExplanation\":\"\",\"reasoning\":\"B\",\"fixedCode\":\"C\"\x7d" =
      Except.ok ⟨JsonVal.str "No error explanation provided", JsonVal.str "B",
        JsonVal.str "C"⟩ ∧
    ("No error explanation provided" : String) ≠ "" :=
  ⟨rfl, by decide⟩

/-- C6 (amended) — Result Recovery round-trip: for a raw text that
parses as a JSON object whose values under the three canonical keys are
non-empty strings, recovery returns exactly those values unchanged.
(An empty-string value is falsy and is replaced by a placeholder; see
the counterexample.) -/
theorem roundtrip_truthy_values (s : String) (o : List (String × JsonVal)) (a b c : String)
    (hp : jsonParse s = some (JsonVal.obj o))
    (ha : jlookupLast o "errorExplanation" = some (JsonVal.str a)) (ha' : a ≠ "")
    (hb : jlookupLast o "reasoning" = some (JsonVal.str b)) (hb' : b ≠ "")
    (hc : jlookupLast o "fixedCode" = some (JsonVal.str c)) (hc' : c ≠ "") :
    recover s = Except.ok ⟨JsonVal.str a, JsonVal.str b, JsonVal.str c⟩ := by
  have ha2 : (a == "") = false := beq_eq_false_iff_ne.mpr ha'
  have hb2 : (b == "") = false := beq_eq_false_iff_ne.mpr hb'
  have hc2 : (c == "") = false := beq_eq_false_iff_ne.mpr hc'
  unfold recover
  rw [hp]
  simp [mkDebugResult, jsGetOpt, ha, hb, hc, jsOr, jsTruthy, ha2, hb2, hc2]

/-- Witness for the amended C6 at a concrete raw text. -/
theorem roundtrip_truthy_values_witness :
    recover "\x7b\"errorExplanation\":\"a\",\"reasoning\":\"b\",\"fixedCode\":\"c\"\x7d" =
      Except.ok ⟨JsonVal.str "a", JsonVal.str "b", JsonVal.str "c"⟩ :=
  roundtrip_truthy_values _
    [("errorExplanation", JsonVal.str "a"), ("reasoning", JsonVal.str "b"),
     ("fixedCode", JsonVal.str "c")]
    "a" "b" "c" rfl rfl (by decide) rfl (by decide) rfl (by decide)

theorem jsOr_cons (o : List (String × JsonVal)) (k : String) (ks : List String)
    (ph : String) (b : JsonVal) (hb : b = firstTruthy o ks ph) :
    jsOr (jsGetOpt (JsonVal.obj o) k) b = firstTruthy o (k :: ks) ph := by
  subst hb
  simp only [jsGetOpt, firstTruthy]
  cases h : jlookupLast o k with
  | none => rfl
  | some v => rfl

/-- C7 (amended) — Result Recovery aliasing: on the candidate object,
each output field is the value of the first alias key that is present
with a truthy value — `(errorExplanation, explanation)`,
`(reasoning, reason)`, `(fixedCode, code, correctedCode)` — else the
fixed placeholder; in particular the input
`\x7b"explanation":"X","reason":"Y","code":"Z"\x7d` yields
`(X, Y, Z)`.  (A key that is present with a falsy value is skipped, not
used; see the counterexample.) -/
theorem aliasing_first_truthy :
    (∀ o : List (String × JsonVal),
      mkDebugResult (JsonVal.obj o) =
        Except.ok
          ⟨firstTruthy o ["errorExplanation", "explanation"] "No error explanation provided",
           firstTruthy o ["reasoning", "reason"] "No reasoning provided",
           firstTruthy o ["fixedCode", "code", "correctedCode"] "No fixed code provided"⟩) ∧
    recover "\x7b\"explanation\":\"X\",\"reason\":\"Y\",\"code\":\"Z\"\x7d" =
      Except.ok ⟨JsonVal.str "X", JsonVal.str "Y", JsonVal.str "Z"⟩ := by
  constructor
  · intro o
    have e1 := jsOr_cons o "errorExplanation" ["explanation"] "No error explanation provided"
      (jsOr (jsGetOpt (JsonVal.obj o) "explanation") (JsonVal.str "No error explanation provided"))
      (jsOr_cons o "explanation" [] "No error explanation provided"
        (JsonVal.str "No error explanation provided") rfl)
    have e2 := jsOr_cons o "reasoning" ["reason"] "No reasoning provided"
      (jsOr (jsGetOpt (JsonVal.obj o) "reason") (JsonVal.str "No reasoning provided"))
      (jsOr_cons o "reason" [] "No reasoning provided" (JsonVal.str "No reasoning provided") rfl)
    have e3 := jsOr_cons o "fixedCode" ["code", "correctedCode"] "No fixed code provided"
      (jsOr (jsGetOpt (JsonVal.obj o) "code")
        (jsOr (jsGetOpt (JsonVal.obj o) "correctedCode") (JsonVal.str "No fixed code provided")))
      (jsOr_cons o "code" ["correctedCode"] "No fixed code provided"
        (jsOr (jsGetOpt (JsonVal.obj o) "correctedCode") (JsonVal.str "No fixed code provided"))
        (jsOr_cons o "correctedCode" [] "No fixed code provided"
          (JsonVal.str "No fixed code provided") rfl))
    simp only [mkDebugResult]
    rw [e1, e2, e3]
  · rfl

/-- C7 counterexample — a candidate where `errorExplanation` is present
but empty: the claimed first-present rule would yield the empty string,
while the code skips the falsy value and answers with the `explanation`
alias. -/
theorem aliasing_falsy_counterexample :
    mkDebugResult (JsonVal.obj
      [("errorExplanation", JsonVal.str ""), ("explanation", JsonVal.str "W"),
       ("reasoning", JsonVal.str "Y"), ("fixedCode", JsonVal.str "Z")]) =
      Except.ok ⟨JsonVal.str "W", JsonVal.str "Y", JsonVal.str "Z"⟩ ∧
    ("W" : String) ≠ "" :=
  ⟨rfl, by decide⟩

set_option maxRecDepth 8192 in
/-- C8 counterexample — in the second handler, a request carrying both
a text artifact and a non-blank raw code drops the artifact's content
from the built prompt entirely (the raw-code instruction overwrites the
artifact instruction), while the first handler keeps both. -/
theorem both_inputs_second_handler_counterexample :
    partTextContains (buildPrompt2 (some fZZ) (some "print(x)")) "ZZFILEZZ" = false ∧
    partTextContains (buildPrompt1 (some fZZ) (some "print(x)")) "ZZFILEZZ" = true :=
  ⟨rfl, rfl⟩

/-- C8 (amended) — Complementary inputs: in the first handler, a
request with a non-blank raw code and an artifact yields a prompt
containing both the artifact-derived instruction text (the image
instruction, or the code instruction embedding the artifact content)
and the raw-code instruction text, concatenated; in the second handler
the raw-code instruction replaces the artifact-derived instruction
text. -/
theorem both_inputs_concatenated_amended (f : Artifact) (c : String)
    (hc : (strTruthy c && strTruthy (jsTrim c)) = true) :
    (isImageFile f = true →
      strContains (userPromptText1 (some f) (some c)) imageInstr = true ∧
      strContains (userPromptText1 (some f) (some c)) (analyzeCodeInstr c) = true) ∧
    (isImageFile f = false →
      strContains (userPromptText1 (some f) (some c)) (analyzeCodeInstr f.content) = true ∧
      strContains (userPromptText1 (some f) (some c)) (analyzeCodeInstr c) = true) ∧
    userPromptText2 (some f) (some c) = analyzeCodeInstr c := by
  obtain ⟨hc1, hc2⟩ := Bool.and_eq_true_iff.mp hc
  refine ⟨?_, ?_, ?_⟩
  · intro himg
    have hup : userPromptText1 (some f) (some c) =
        (systemPrompt1 ++ "\n\n") ++ imageInstr ++ analyzeCodeInstr c := by
      simp [userPromptText1, himg, hc1, hc2]
    constructor
    · rw [hup]
      exact strContains_append_middle (systemPrompt1 ++ "\n\n") imageInstr (analyzeCodeInstr c)
    · rw [hup]
      exact strContains_append_left ((systemPrompt1 ++ "\n\n") ++ imageInstr) (analyzeCodeInstr c)
  · intro himg
    have hup : userPromptText1 (some f) (some c) =
        (systemPrompt1 ++ "\n\n") ++ analyzeCodeInstr f.content ++ analyzeCodeInstr c := by
      simp [userPromptText1, himg, hc1, hc2]
    constructor
    · rw [hup]
      exact strContains_append_middle (systemPrompt1 ++ "\n\n") (analyzeCodeInstr f.content)
        (analyzeCodeInstr c)
    · rw [hup]
      exact strContains_append_left ((systemPrompt1 ++ "\n\n") ++ analyzeCodeInstr f.content)
        (analyzeCodeInstr c)
  · simp [userPromptText2, hc1, hc2]

/-- Witness for the amended C8 at a concrete artifact and raw code. -/
theorem both_inputs_concatenated_amended_witness :
    strContains (userPromptText1 (some fZZ) (some "print(x)")) (analyzeCodeInstr fZZ.content) = true ∧
    strContains (userPromptText1 (some fZZ) (some "print(x)")) (analyzeCodeInstr "print(x)") = true ∧
    userPromptText2 (some fZZ) (some "print(x)") = analyzeCodeInstr "print(x)" := by
  have h := both_inputs_concatenated_amended fZZ "print(x)" (by decide)
  exact ⟨(h.2.1 (by decide)).1, (h.2.1 (by decide)).2, h.2.2⟩

theorem jsOr_isStr {o : List (String × JsonVal)} {k : String} {b : JsonVal}
    (hall : ∀ p ∈ o, isStrB p.2 = true) (hb : isStrB b = true) :
    isStrB (jsOr (jsGetOpt (JsonVal.obj o) k) b) = true := by
  simp only [jsGetOpt]
  cases hl : jlookupLast o k with
  | none => simpa [jsOr] using hb
  | some v =>
    have hv : isStrB v = true := hall (k, v) (jlookupLast_mem hl)
    by_cases ht : jsTruthy v = true
    · simpa [jsOr, ht] using hv
    · simp only [Bool.not_eq_true] at ht
      simpa [jsOr, ht] using hb

/-- C9 counterexample — a request that completes successfully with the
backend's JSON carrying the number `42` under `errorExplanation`: the
success body's field holds that number unchanged, not a string. -/
theorem nonstring_passthrough_counterexample :
    isOkResp (POST1 none (some "x") b42).1 = true ∧
    okAllStrings (POST1 none (some "x") b42).1 = false :=
  ⟨rfl, rfl⟩

/-- C9 (amended) — Success-output shape: the success body always has
exactly the three fields `errorExplanation`, `reasoning`, `fixedCode`
(by construction of `DebugResultV`), and each is a string whenever the
backend's JSON object carries only string values; a truthy non-string
value under one of the alias keys is passed through unchanged (see the
counterexample). -/
theorem success_output_strings_amended (content : String) (o : List (String × JsonVal))
    (r : DebugResultV)
    (hp : jsonParse content = some (JsonVal.obj o))
    (hall : ∀ p ∈ o, isStrB p.2 = true)
    (h : recover content = Except.ok r) :
    isStrB r.errorExplanation = true ∧ isStrB r.reasoning = true ∧
      isStrB r.fixedCode = true := by
  unfold recover at h
  rw [hp] at h
  obtain ⟨e1, e2, e3⟩ := r
  dsimp only
  simp only [mkDebugResult, Except.ok.injEq, DebugResultV.mk.injEq] at h
  obtain ⟨h1, h2, h3⟩ := h
  subst h1
  subst h2
  subst h3
  refine ⟨jsOr_isStr hall (jsOr_isStr hall ?_), jsOr_isStr hall (jsOr_isStr hall ?_),
    jsOr_isStr hall (jsOr_isStr hall (jsOr_isStr hall ?_))⟩ <;> rfl

/-- Witness for the amended C9 at a concrete raw text. -/
theorem success_output_strings_amended_witness :
    isStrB (DebugResultV.errorExplanation
      ⟨JsonVal.str "a", JsonVal.str "b", JsonVal.str "c"⟩) = true ∧
    isStrB (DebugResultV.reasoning
      ⟨JsonVal.str "a", JsonVal.str "b", JsonVal.str "c"⟩) = true ∧
    isStrB (DebugResultV.fixedCode
      ⟨JsonVal.str "a", JsonVal.str "b", JsonVal.str "c"⟩) = true :=
  success_output_strings_amended
    "\x7b\"errorExplanation\":\"a\",\"reasoning\":\"b\",\"fixedCode\":\"c\"\x7d"
    [("errorExplanation", JsonVal.str "a"), ("reasoning", JsonVal.str "b"),
     ("fixedCode", JsonVal.str "c")]
    ⟨JsonVal.str "a", JsonVal.str "b", JsonVal.str "c"⟩ rfl (by decide) rfl

/-- C10 — JSON-scalar edge of recovery: raw texts that parse as JSON
scalars do not fall through to the fenced/brace/synthesized steps;
field resolution runs directly on the parsed primitive, so `42`, a
quoted string, `true` and `false` yield the three fixed placeholders
(the raw text is discarded, and the result differs from the step-4
synthesis), while `null` throws a `TypeError` at the first property
access. -/
theorem scalar_recovery_behavior :
    recover "42" = Except.ok ⟨JsonVal.str "No error explanation provided",
      JsonVal.str "No reasoning provided", JsonVal.str "No fixed code provided"⟩ ∧
    recover "\"hello\"" = Except.ok ⟨JsonVal.str "No error explanation provided",
      JsonVal.str "No reasoning provided", JsonVal.str "No fixed code provided"⟩ ∧
    recover "true" = Except.ok ⟨JsonVal.str "No error explanation provided",
      JsonVal.str "No reasoning provided", JsonVal.str "No fixed code provided"⟩ ∧
    recover "false" = Except.ok ⟨JsonVal.str "No error explanation provided",
      JsonVal.str "No reasoning provided", JsonVal.str "No fixed code provided"⟩ ∧
    recover "null" = Except.error JsErr.typeError ∧
    ("No reasoning provided" : String) ≠ "AI analysis completed" :=
  ⟨rfl, rfl, rfl, rfl, rfl, by decide⟩
